import Mathlib

/-!
# Publish routing of `rclcpp::Publisher<MessageT, Alloc>`

A shallow embedding of `rclcpp/include/rclcpp/publisher.hpp`.

* A call of a `void` member function is a `Run`: the list of calls it made on
  its collaborators (allocator, intra-process manager, rcl), in program order,
  and how it ended (returned, threw, or ran into undefined behaviour).
* Everything the publisher reads from outside (subscription counts, the status
  returned by rcl, the validity of the rcl context) is a field of `Environment`.
* `MessageT` is a type parameter `M`; a smart pointer is an `Option M`
  (`none` is the null pointer).
-/

namespace rclcpp

/-- Status code of the rcl layer (`rcl_ret_t`, a C `int`). -/
abbrev rcl_ret_t := Int

/-- The two rcl status constants the publisher compares against. They are declared
in `rcl/types.h`, which is not part of the sources, so their values are parameters. -/
structure RclConstants where
  RCL_RET_OK : rcl_ret_t
  RCL_RET_PUBLISHER_INVALID : rcl_ret_t
deriving DecidableEq, Repr

/-- Modelled from the spec: `rcl_serialized_message_t` is declared by rcl, outside the
sources; the spec calls it a pre-serialized byte buffer. -/
structure rcl_serialized_message_t where
  buffer : List Nat
deriving DecidableEq, Repr

/-- What a `throw` statement of the publisher raises. -/
inductive Exception where
  /-- The exception `std::runtime_error(what)`. -/
  | runtime_error (what : String)
  /-- The exception raised by `rclcpp::exceptions::throw_from_rcl_error(ret, what)`. -/
  | rcl_error (ret : rcl_ret_t) (what : String)
  /-- The "registry unavailable" failure of the subscriber count query of the spec, raised
  when the intra-process manager is gone. -/
  | registry_unavailable
deriving DecidableEq, Repr

/-- How a call ends. -/
inductive Outcome where
  /-- The call returned to its caller. -/
  | returned
  /-- The call left by an exception. -/
  | threw (e : Exception)
  /-- The call dereferenced a null smart pointer: nothing is guaranteed from there on. -/
  | undefined_behavior
deriving DecidableEq, Repr

/-- One call made by the publisher on a collaborator. -/
inductive Event (M : Type) where
  /-- The call `MessageAllocTraits::allocate(*message_allocator_.get(), n)`. -/
  | allocate (alloc : Nat) (n : Nat)
  /-- The call `MessageAllocTraits::construct(*message_allocator_.get(), ptr, msg)`. -/
  | construct (alloc : Nat) (msg : M)
  /-- The call `get_subscription_count()`. -/
  | get_subscription_count
  /-- The call `get_intra_process_subscription_count()`. -/
  | get_intra_process_subscription_count
  /-- Construction of a `std::shared_ptr<MessageT>` from the moved `unique_ptr`. -/
  | promote (msg : Option M)
  /-- The call `weak_ipm_.lock()`. -/
  | weak_ipm_lock
  /-- The call `ipm->do_intra_process_publish(id, shared_ptr, message_allocator_)`. -/
  | ipm_publish_shared (id : Nat) (msg : M) (alloc : Nat)
  /-- The call `ipm->do_intra_process_publish(id, unique_ptr, message_allocator_)`. -/
  | ipm_publish_unique (id : Nat) (msg : M) (deleter : Nat) (alloc : Nat)
  /-- The call `rcl_publish(&publisher_handle_, &msg, nullptr)`. -/
  | rcl_publish (msg : M)
  /-- The call `rcl_publish_serialized_message(&publisher_handle_, serialized_msg, nullptr)`. -/
  | rcl_publish_serialized_message (msg : rcl_serialized_message_t)
  /-- The call `rcl_reset_error()`. -/
  | rcl_reset_error
  /-- The call `rcl_publisher_is_valid_except_context(&publisher_handle_)`. -/
  | rcl_publisher_is_valid_except_context
  /-- The call `rcl_publisher_get_context(&publisher_handle_)`. -/
  | rcl_publisher_get_context
  /-- The call `rcl_context_is_valid(context)`. -/
  | rcl_context_is_valid
deriving DecidableEq, Repr

/-- A `std::unique_ptr<MessageT, MessageDeleter>`: the pointee (`none` when null) and the
allocator its deleter releases through. -/
structure MessageUniquePtr (M : Type) where
  ptr : Option M
  deleter : Nat
deriving DecidableEq, Repr

/-- The members of `Publisher` and `PublisherBase` that `publish` reads.
`weak_ipm_` is `true` when `weak_ipm_.lock()` yields a live intra-process manager.
Allocators are named by a number; `message_deleter_` is the allocator the deleter is bound to. -/
structure Publisher where
  intra_process_is_enabled_ : Bool
  weak_ipm_ : Bool
  intra_process_publisher_id_ : Nat
  message_allocator_ : Nat
  message_deleter_ : Nat
deriving DecidableEq, Repr

/-- What the collaborators answer during one call. The first two fields are the counts the
two getters of `PublisherBase` yield when they return; the rest are rcl functions outside
the sources, so their results are parameters. `rcl_publisher_get_context` is `none` for a
null context and `some v` for a context on which `rcl_context_is_valid` answers `v`. -/
structure Environment (M : Type) where
  get_subscription_count : Nat
  get_intra_process_subscription_count : Nat
  rcl_publish : M → rcl_ret_t
  rcl_publish_serialized_message : rcl_serialized_message_t → rcl_ret_t
  rcl_publisher_is_valid_except_context : Bool
  rcl_publisher_get_context : Option Bool

/-- The calls made so far and how the function ended. -/
structure Run (M : Type) where
  trace : List (Event M)
  outcome : Outcome
deriving DecidableEq, Repr

namespace Run

variable {M : Type}

/-- The empty statement: nothing is called. -/
def skip : Run M := ⟨[], Outcome.returned⟩

/-- One call on a collaborator, which returns. -/
def call (e : Event M) : Run M := ⟨[e], Outcome.returned⟩

/-- A `throw` statement. -/
def raise (e : Exception) : Run M := ⟨[], Outcome.threw e⟩

/-- Dereference of a null smart pointer. -/
def undefined : Run M := ⟨[], Outcome.undefined_behavior⟩

/-- Sequencing `r; k`: `k` runs only when `r` returned. -/
def andThen (r k : Run M) : Run M :=
  match r.outcome with
  | Outcome.returned => ⟨r.trace ++ k.trace, k.outcome⟩
  | _ => r

end Run

section Code

variable {M : Type}

/-- Modelled from the spec: `rclcpp::exceptions::throw_from_rcl_error` is defined in
`exceptions.cpp`, outside the sources; per the spec it surfaces a failure that describes
the operation. -/
def throw_from_rcl_error (ret : rcl_ret_t) (what : String) : Run M :=
  Run.raise (Exception.rcl_error ret what)

/-- The expression `*msg` on a smart pointer, followed by the use `k` of the reference. -/
def deref (msg : Option M) (k : M → Run M) : Run M :=
  match msg with
  | some m => k m
  | none => Run.undefined

/-- The member `Publisher::do_inter_process_publish(const MessageT & msg)`. -/
def do_inter_process_publish (K : RclConstants) (env : Environment M) (msg : M) : Run M :=
  let status := env.rcl_publish msg
  let rest : Run M :=
    if K.RCL_RET_OK ≠ status then throw_from_rcl_error status "failed to publish message"
    else Run.skip
  Run.andThen (Run.call (Event.rcl_publish msg)) <|
    if K.RCL_RET_PUBLISHER_INVALID = status then
      Run.andThen (Run.call Event.rcl_reset_error) <|
      Run.andThen (Run.call Event.rcl_publisher_is_valid_except_context) <|
        if env.rcl_publisher_is_valid_except_context then
          Run.andThen (Run.call Event.rcl_publisher_get_context) <|
            match env.rcl_publisher_get_context with
            | none => rest
            | some context_is_valid =>
              Run.andThen (Run.call Event.rcl_context_is_valid) <|
                if !context_is_valid then Run.skip else rest
        else rest
    else rest

/-- The member `Publisher::do_serialized_publish(const rcl_serialized_message_t *)`. -/
def do_serialized_publish (K : RclConstants) (p : Publisher) (env : Environment M)
    (serialized_msg : rcl_serialized_message_t) : Run M :=
  if p.intra_process_is_enabled_ then
    Run.raise (Exception.runtime_error
      "storing serialized messages in intra process is not supported yet")
  else
    let status := env.rcl_publish_serialized_message serialized_msg
    Run.andThen (Run.call (Event.rcl_publish_serialized_message serialized_msg)) <|
      if K.RCL_RET_OK ≠ status then
        throw_from_rcl_error status "failed to publish serialized message"
      else Run.skip

/-- The member `Publisher::do_intra_process_publish(std::shared_ptr<const MessageT>)`. -/
def do_intra_process_publish_shared (p : Publisher) (msg : Option M) : Run M :=
  Run.andThen (Run.call Event.weak_ipm_lock) <|
    if !p.weak_ipm_ then
      Run.raise (Exception.runtime_error
        "intra process publish called after destruction of intra process manager")
    else
      match msg with
      | none => Run.raise (Exception.runtime_error "cannot publish msg which is a null pointer")
      | some m =>
        Run.call (Event.ipm_publish_shared p.intra_process_publisher_id_ m p.message_allocator_)

/-- The member
`Publisher::do_intra_process_publish(std::unique_ptr<MessageT, MessageDeleter>)`. -/
def do_intra_process_publish_unique (p : Publisher) (msg : MessageUniquePtr M) : Run M :=
  Run.andThen (Run.call Event.weak_ipm_lock) <|
    if !p.weak_ipm_ then
      Run.raise (Exception.runtime_error
        "intra process publish called after destruction of intra process manager")
    else
      match msg.ptr with
      | none => Run.raise (Exception.runtime_error "cannot publish msg which is a null pointer")
      | some m =>
        Run.call (Event.ipm_publish_unique p.intra_process_publisher_id_ m msg.deleter
          p.message_allocator_)

/-- Modelled from the spec: `PublisherBase::get_subscription_count` is defined in
`publisher_base.cpp`, outside the sources. It is the query for the total count, whose
value is `Environment.get_subscription_count`. -/
def get_subscription_count : Run M :=
  Run.call Event.get_subscription_count

/-- Modelled from the spec: `PublisherBase::get_intra_process_subscription_count` is defined
in `publisher_base.cpp`, outside the sources. It is the query for the local count, whose
value is `Environment.get_intra_process_subscription_count`; per the spec (4.3) the query
fails with the "registry unavailable" condition when the relation to the registry has
outlived the registry. -/
def get_intra_process_subscription_count (p : Publisher) : Run M :=
  Run.andThen (Run.call Event.get_intra_process_subscription_count) <|
    if !p.weak_ipm_ then Run.raise Exception.registry_unavailable else Run.skip

/-- The member `Publisher::publish(std::unique_ptr<MessageT, MessageDeleter> msg)`.
The two count getters are called left to right. -/
def publish (K : RclConstants) (p : Publisher) (env : Environment M)
    (msg : MessageUniquePtr M) : Run M :=
  if !p.intra_process_is_enabled_ then
    deref msg.ptr (fun m => do_inter_process_publish K env m)
  else
    let inter_process_publish_needed : Bool :=
      decide (env.get_subscription_count > env.get_intra_process_subscription_count)
    Run.andThen get_subscription_count <|
    Run.andThen (get_intra_process_subscription_count p) <|
      if inter_process_publish_needed then
        let shared_msg : Option M := msg.ptr
        Run.andThen (Run.call (Event.promote shared_msg)) <|
        Run.andThen (do_intra_process_publish_shared p shared_msg) <|
          deref shared_msg (fun m => do_inter_process_publish K env m)
      else
        do_intra_process_publish_unique p msg

/-- The member `Publisher::publish(const MessageT & msg)`. Allocation and copy construction
are taken to succeed and to yield a message equal to `msg`. -/
def publish_value (K : RclConstants) (p : Publisher) (env : Environment M) (msg : M) : Run M :=
  if !p.intra_process_is_enabled_ then
    do_inter_process_publish K env msg
  else
    Run.andThen (Run.call (Event.allocate p.message_allocator_ 1)) <|
    Run.andThen (Run.call (Event.construct p.message_allocator_ msg)) <|
      let unique_msg : MessageUniquePtr M := ⟨some msg, p.message_deleter_⟩
      publish K p env unique_msg

/-- The member `Publisher::publish(const rcl_serialized_message_t & serialized_msg)`. -/
def publish_serialized (K : RclConstants) (p : Publisher) (env : Environment M)
    (serialized_msg : rcl_serialized_message_t) : Run M :=
  do_serialized_publish K p env serialized_msg

end Code

section Views

variable {M : Type}

/-- A delivery of a message: a hand-over to the intra-process manager (Registry.deliver)
or a send through rcl (Transport.send, Transport.send_serialized). -/
def Event.is_delivery : Event M → Bool
  | Event.ipm_publish_shared _ _ _ => true
  | Event.ipm_publish_unique _ _ _ _ => true
  | Event.rcl_publish _ => true
  | Event.rcl_publish_serialized_message _ => true
  | _ => false

/-- The rcl calls by which `do_inter_process_publish` classifies the status of a send it
has already made; the spec folds them into the status the transport reports. -/
def Event.is_status_inspection : Event M → Bool
  | Event.rcl_reset_error => true
  | Event.rcl_publisher_is_valid_except_context => true
  | Event.rcl_publisher_get_context => true
  | Event.rcl_context_is_valid => true
  | _ => false

/-- The deliveries of a trace, in order. -/
def deliveries (t : List (Event M)) : List (Event M) :=
  t.filter Event.is_delivery

/-- The trace at the level of the collaborator interfaces of the spec (allocator, count
queries, liveness check, promotion, deliveries): status inspections are left out. -/
def interface_trace (t : List (Event M)) : List (Event M) :=
  t.filter (fun e => !e.is_status_inspection)

/-- The event with the deleter of an exclusive handle forgotten: the call and the payload
content remain. -/
def Event.forget_deleter : Event M → Event M
  | Event.ipm_publish_unique id msg _ alloc => Event.ipm_publish_unique id msg 0 alloc
  | e => e

/-- The transient case in the words of the spec: the status is publisher-invalid, the
publisher is valid except for its context, the context is not null, and it is invalid. -/
def transient_invalid (K : RclConstants) (env : Environment M) (status : rcl_ret_t) : Bool :=
  decide (status = K.RCL_RET_PUBLISHER_INVALID) &&
    env.rcl_publisher_is_valid_except_context &&
    (env.rcl_publisher_get_context == some false)

end Views

section Examples

/-- The values of the two constants in `rcl/types.h`, used for concrete runs. -/
def rcl_constants : RclConstants := ⟨0, 300⟩

/-- A publisher with intra-process delivery enabled and a live intra-process manager. -/
def intra_publisher : Publisher := ⟨true, true, 7, 4, 4⟩

/-- A publisher with intra-process delivery enabled whose intra-process manager is gone. -/
def stale_publisher : Publisher := ⟨true, false, 7, 4, 4⟩

/-- A publisher with intra-process delivery disabled. -/
def inter_publisher : Publisher := ⟨false, false, 7, 4, 4⟩

/-- An environment with `total` subscriptions, `loc` of them intra-process, in which both
rcl publish calls return `status`, and the publisher is valid except for its context,
which is not null and answers `ctx_valid`. -/
def example_env (total loc : Nat) (status : rcl_ret_t) (ctx_valid : Bool) : Environment Nat :=
  ⟨total, loc, fun _ => status, fun _ => status, true, some ctx_valid⟩

end Examples

section Lemmas

variable {M : Type}

theorem andThen_call (e : Event M) (k : Run M) :
    Run.andThen (Run.call e) k = ⟨e :: k.trace, k.outcome⟩ := rfl

theorem andThen_raise (x : Exception) (k : Run M) :
    Run.andThen (Run.raise x) k = Run.raise x := rfl

theorem deliveries_append (s t : List (Event M)) :
    deliveries (s ++ t) = deliveries s ++ deliveries t := by
  simp [deliveries]

theorem interface_trace_append (s t : List (Event M)) :
    interface_trace (s ++ t) = interface_trace s ++ interface_trace t := by
  simp [interface_trace]

theorem andThen_undefined (k : Run M) :
    Run.andThen (Run.undefined : Run M) k = Run.undefined := rfl

/-- The outcome of the inter-process send: the failure is raised exactly when the status
is not `RCL_RET_OK` and the transient case does not apply. -/
theorem do_inter_process_publish_outcome (K : RclConstants) (env : Environment M) (m : M) :
    (do_inter_process_publish K env m).outcome =
      if env.rcl_publish m ≠ K.RCL_RET_OK ∧
          transient_invalid K env (env.rcl_publish m) = false then
        Outcome.threw (Exception.rcl_error (env.rcl_publish m) "failed to publish message")
      else Outcome.returned := by
  obtain ⟨tc, lc, rp, rps, v, ctx⟩ := env
  obtain ⟨ok, pinv⟩ := K
  simp only [do_inter_process_publish, andThen_call, throw_from_rcl_error, transient_invalid]
  rcases eq_or_ne pinv (rp m) with h1 | h1 <;> rcases eq_or_ne ok (rp m) with h2 | h2 <;>
    cases v <;> rcases ctx with _ | _ | _ <;>
    simp [*, Ne.symm, Run.andThen, Run.call, Run.skip, Run.raise]

/-- At interface level the inter-process send is the one call of `rcl_publish`. -/
theorem do_inter_process_publish_interface (K : RclConstants) (env : Environment M) (m : M) :
    interface_trace (do_inter_process_publish K env m).trace = [Event.rcl_publish m] := by
  obtain ⟨tc, lc, rp, rps, v, ctx⟩ := env
  obtain ⟨ok, pinv⟩ := K
  simp only [do_inter_process_publish, andThen_call, throw_from_rcl_error]
  rcases eq_or_ne pinv (rp m) with h1 | h1 <;> rcases eq_or_ne ok (rp m) with h2 | h2 <;>
    cases v <;> rcases ctx with _ | _ | _ <;>
    simp [*, Ne.symm, Run.andThen, Run.call, Run.skip, Run.raise, interface_trace,
      Event.is_status_inspection]

/-- The only delivery of the inter-process send is the one call of `rcl_publish`. -/
theorem do_inter_process_publish_deliveries (K : RclConstants) (env : Environment M) (m : M) :
    deliveries (do_inter_process_publish K env m).trace = [Event.rcl_publish m] := by
  obtain ⟨tc, lc, rp, rps, v, ctx⟩ := env
  obtain ⟨ok, pinv⟩ := K
  simp only [do_inter_process_publish, andThen_call, throw_from_rcl_error]
  rcases eq_or_ne pinv (rp m) with h1 | h1 <;> rcases eq_or_ne ok (rp m) with h2 | h2 <;>
    cases v <;> rcases ctx with _ | _ | _ <;>
    simp [*, Ne.symm, Run.andThen, Run.call, Run.skip, Run.raise, deliveries,
      Event.is_delivery]

/-- The disabled path of `publish`: the handle is dereferenced and sent. -/
theorem publish_disabled (K : RclConstants) (p : Publisher) (env : Environment M)
    (msg : MessageUniquePtr M) (hdisabled : p.intra_process_is_enabled_ = false) :
    publish K p env msg = deref msg.ptr (fun m => do_inter_process_publish K env m) := by
  simp [publish, hdisabled]

/-- The promoting path of `publish` on a non-null handle with a live intra-process
manager: five calls, then the inter-process send. -/
theorem publish_promoting (K : RclConstants) (p : Publisher) (env : Environment M) (m : M)
    (d : Nat) (henabled : p.intra_process_is_enabled_ = true) (hlive : p.weak_ipm_ = true)
    (hcount : env.get_subscription_count > env.get_intra_process_subscription_count) :
    publish K p env ⟨some m, d⟩ =
      ⟨[Event.get_subscription_count, Event.get_intra_process_subscription_count,
        Event.promote (some m), Event.weak_ipm_lock,
        Event.ipm_publish_shared p.intra_process_publisher_id_ m p.message_allocator_] ++
        (do_inter_process_publish K env m).trace,
       (do_inter_process_publish K env m).outcome⟩ := by
  have hc : decide (env.get_intra_process_subscription_count < env.get_subscription_count)
      = true := by simpa using hcount
  simp [publish, henabled, hlive, hc, get_subscription_count,
    get_intra_process_subscription_count, do_intra_process_publish_shared, deref,
    Run.andThen, Run.call, Run.skip]

/-- The path of `publish` without promotion, on a non-null handle with a live
intra-process manager. -/
theorem publish_exclusive (K : RclConstants) (p : Publisher) (env : Environment M) (m : M)
    (d : Nat) (henabled : p.intra_process_is_enabled_ = true) (hlive : p.weak_ipm_ = true)
    (hcount : ¬ env.get_subscription_count > env.get_intra_process_subscription_count) :
    publish K p env ⟨some m, d⟩ =
      ⟨[Event.get_subscription_count, Event.get_intra_process_subscription_count,
        Event.weak_ipm_lock,
        Event.ipm_publish_unique p.intra_process_publisher_id_ m d p.message_allocator_],
       Outcome.returned⟩ := by
  have hc : decide (env.get_intra_process_subscription_count < env.get_subscription_count)
      = false := by simpa using hcount
  simp [publish, henabled, hlive, hc, get_subscription_count,
    get_intra_process_subscription_count, do_intra_process_publish_unique, Run.andThen,
    Run.call, Run.skip]

/-- With intra-process delivery enabled and the intra-process manager gone, `publish`
stops at the count query, whatever the handle and the counts. -/
theorem publish_stale (K : RclConstants) (p : Publisher) (env : Environment M)
    (msg : MessageUniquePtr M) (henabled : p.intra_process_is_enabled_ = true)
    (hstale : p.weak_ipm_ = false) :
    publish K p env msg =
      ⟨[Event.get_subscription_count, Event.get_intra_process_subscription_count],
       Outcome.threw Exception.registry_unavailable⟩ := by
  simp [publish, henabled, hstale, get_subscription_count,
    get_intra_process_subscription_count, Run.andThen, Run.call, Run.raise]

end Lemmas

section Theorems

variable {M : Type}

/-- C1. With intra-process delivery enabled, a live intra-process manager, more
subscriptions than intra-process subscriptions and a non-null exclusive handle on `m`,
a publish whose rcl send succeeds returns, and its deliveries are exactly one hand-over of
the shared handle on `m` to the intra-process manager followed by one rcl send of `m`.
At interface level the whole trace is: the two count queries, the promotion, the liveness
check, the hand-over, the send. -/
theorem publish_unique_with_remote_delivers_then_sends (K : RclConstants) (p : Publisher)
    (env : Environment M) (m : M) (d : Nat)
    (henabled : p.intra_process_is_enabled_ = true)
    (hlive : p.weak_ipm_ = true)
    (hcount : env.get_subscription_count > env.get_intra_process_subscription_count)
    (hok : env.rcl_publish m = K.RCL_RET_OK) :
    (publish K p env ⟨some m, d⟩).outcome = Outcome.returned ∧
    deliveries (publish K p env ⟨some m, d⟩).trace =
      [Event.ipm_publish_shared p.intra_process_publisher_id_ m p.message_allocator_,
       Event.rcl_publish m] ∧
    interface_trace (publish K p env ⟨some m, d⟩).trace =
      [Event.get_subscription_count, Event.get_intra_process_subscription_count,
       Event.promote (some m), Event.weak_ipm_lock,
       Event.ipm_publish_shared p.intra_process_publisher_id_ m p.message_allocator_,
       Event.rcl_publish m] := by
  rw [publish_promoting K p env m d henabled hlive hcount]
  refine ⟨?_, ?_, ?_⟩
  · simp [do_inter_process_publish_outcome, hok]
  · rw [deliveries_append, do_inter_process_publish_deliveries]
    rfl
  · rw [interface_trace_append, do_inter_process_publish_interface]
    rfl

/-- Witness of C1: three subscriptions, one of them intra-process, payload 1, rcl send
returns `RCL_RET_OK`. -/
theorem publish_unique_with_remote_delivers_then_sends_witness :
    (intra_publisher.intra_process_is_enabled_ = true ∧ intra_publisher.weak_ipm_ = true ∧
      (example_env 3 1 0 true).get_subscription_count >
        (example_env 3 1 0 true).get_intra_process_subscription_count ∧
      (example_env 3 1 0 true).rcl_publish 1 = rcl_constants.RCL_RET_OK) ∧
    ((publish rcl_constants intra_publisher (example_env 3 1 0 true) ⟨some 1, 4⟩).outcome
        = Outcome.returned ∧
      deliveries (publish rcl_constants intra_publisher (example_env 3 1 0 true)
          ⟨some 1, 4⟩).trace =
        [Event.ipm_publish_shared 7 1 4, Event.rcl_publish 1] ∧
      interface_trace (publish rcl_constants intra_publisher (example_env 3 1 0 true)
          ⟨some 1, 4⟩).trace =
        [Event.get_subscription_count, Event.get_intra_process_subscription_count,
         Event.promote (some 1), Event.weak_ipm_lock,
         Event.ipm_publish_shared 7 1 4, Event.rcl_publish 1]) :=
  ⟨⟨rfl, rfl, by decide, rfl⟩,
    publish_unique_with_remote_delivers_then_sends rcl_constants intra_publisher
      (example_env 3 1 0 true) 1 4 rfl rfl (by decide) rfl⟩

/-- C2. With intra-process delivery enabled, a live intra-process manager, as many
subscriptions as intra-process subscriptions (and at least one) and a non-null exclusive
handle on `m`, publish returns after exactly: the two count queries, the liveness check,
and one hand-over of the exclusive handle (with its own deleter) to the intra-process
manager. Its only delivery is that hand-over, so there is no rcl send, and no shared
handle is constructed. -/
theorem publish_unique_local_only_hands_over_exclusive (K : RclConstants) (p : Publisher)
    (env : Environment M) (m : M) (d : Nat)
    (henabled : p.intra_process_is_enabled_ = true)
    (hlive : p.weak_ipm_ = true)
    (heq : env.get_subscription_count = env.get_intra_process_subscription_count)
    (_hpos : 0 < env.get_intra_process_subscription_count) :
    publish K p env ⟨some m, d⟩ =
      ⟨[Event.get_subscription_count, Event.get_intra_process_subscription_count,
        Event.weak_ipm_lock,
        Event.ipm_publish_unique p.intra_process_publisher_id_ m d p.message_allocator_],
       Outcome.returned⟩ ∧
    deliveries (publish K p env ⟨some m, d⟩).trace =
      [Event.ipm_publish_unique p.intra_process_publisher_id_ m d p.message_allocator_] ∧
    (∀ h : Option M, Event.promote h ∉ (publish K p env ⟨some m, d⟩).trace) ∧
    (∀ x : M, Event.rcl_publish x ∉ (publish K p env ⟨some m, d⟩).trace) := by
  have hcount : ¬ env.get_subscription_count > env.get_intra_process_subscription_count := by
    omega
  rw [publish_exclusive K p env m d henabled hlive hcount]
  refine ⟨rfl, rfl, ?_, ?_⟩ <;> intro x <;> simp

/-- Witness of C2: two subscriptions, both intra-process, payload 1. -/
theorem publish_unique_local_only_hands_over_exclusive_witness :
    (intra_publisher.intra_process_is_enabled_ = true ∧ intra_publisher.weak_ipm_ = true ∧
      (example_env 2 2 0 true).get_subscription_count =
        (example_env 2 2 0 true).get_intra_process_subscription_count ∧
      0 < (example_env 2 2 0 true).get_intra_process_subscription_count) ∧
    (publish rcl_constants intra_publisher (example_env 2 2 0 true) ⟨some 1, 9⟩ =
      ⟨[Event.get_subscription_count, Event.get_intra_process_subscription_count,
        Event.weak_ipm_lock, Event.ipm_publish_unique 7 1 9 4], Outcome.returned⟩ ∧
      deliveries (publish rcl_constants intra_publisher (example_env 2 2 0 true)
          ⟨some 1, 9⟩).trace = [Event.ipm_publish_unique 7 1 9 4] ∧
      (∀ h : Option Nat, Event.promote h ∉
        (publish rcl_constants intra_publisher (example_env 2 2 0 true) ⟨some 1, 9⟩).trace) ∧
      (∀ x : Nat, Event.rcl_publish x ∉
        (publish rcl_constants intra_publisher (example_env 2 2 0 true) ⟨some 1, 9⟩).trace)) :=
  ⟨⟨rfl, rfl, rfl, by decide⟩,
    publish_unique_local_only_hands_over_exclusive rcl_constants intra_publisher
      (example_env 2 2 0 true) 1 9 rfl rfl rfl (by decide)⟩

/-- C3. With intra-process delivery disabled, publishing a message through an exclusive
handle and publishing it by const reference both make exactly one call of `rcl_publish`
on that message and, at interface level, nothing else: no allocation, no construction,
no count query, no liveness check, no promotion, no hand-over to the intra-process
manager, whatever the manager state, the counts and the status returned by rcl. -/
theorem publish_disabled_only_sends (K : RclConstants) (p : Publisher)
    (env : Environment M) (m : M) (d : Nat)
    (hdisabled : p.intra_process_is_enabled_ = false) :
    interface_trace (publish K p env ⟨some m, d⟩).trace = [Event.rcl_publish m] ∧
    interface_trace (publish_value K p env m).trace = [Event.rcl_publish m] ∧
    deliveries (publish K p env ⟨some m, d⟩).trace = [Event.rcl_publish m] ∧
    deliveries (publish_value K p env m).trace = [Event.rcl_publish m] := by
  have hv : publish_value K p env m = do_inter_process_publish K env m := by
    simp [publish_value, hdisabled]
  rw [publish_disabled K p env _ hdisabled, hv]
  exact ⟨do_inter_process_publish_interface K env m, do_inter_process_publish_interface K env m,
    do_inter_process_publish_deliveries K env m, do_inter_process_publish_deliveries K env m⟩

/-- Witness of C3: the intra-process manager is gone and there are three subscriptions,
one of them intra-process; rcl reports the publisher invalid with a valid context, so the
status inspections occur and are left out of the interface-level trace. -/
theorem publish_disabled_only_sends_witness :
    inter_publisher.intra_process_is_enabled_ = false ∧
    (interface_trace (publish rcl_constants inter_publisher (example_env 3 1 300 true)
        ⟨some 1, 4⟩).trace = [Event.rcl_publish 1] ∧
      interface_trace (publish_value rcl_constants inter_publisher (example_env 3 1 300 true)
        1).trace = [Event.rcl_publish 1] ∧
      deliveries (publish rcl_constants inter_publisher (example_env 3 1 300 true)
        ⟨some 1, 4⟩).trace = [Event.rcl_publish 1] ∧
      deliveries (publish_value rcl_constants inter_publisher (example_env 3 1 300 true)
        1).trace = [Event.rcl_publish 1]) :=
  ⟨rfl, publish_disabled_only_sends rcl_constants inter_publisher (example_env 3 1 300 true)
    1 4 rfl⟩

/-- C4, evaluated at the failing input. With intra-process delivery disabled, publish
on a null exclusive handle raises no failure: the handle is dereferenced without any null
check (undefined behaviour) in order to call the transport. The enabled paths do check:
on the same null handle both of them raise the null pointer failure before any send. -/
theorem publish_null_handle_disabled_not_rejected :
    publish rcl_constants inter_publisher (example_env 1 0 0 true)
        (⟨none, 4⟩ : MessageUniquePtr Nat) = ⟨[], Outcome.undefined_behavior⟩ ∧
    (∀ e : Exception, (publish rcl_constants inter_publisher (example_env 1 0 0 true)
        (⟨none, 4⟩ : MessageUniquePtr Nat)).outcome ≠ Outcome.threw e) ∧
    publish rcl_constants intra_publisher (example_env 1 0 0 true)
        (⟨none, 4⟩ : MessageUniquePtr Nat) =
      ⟨[Event.get_subscription_count, Event.get_intra_process_subscription_count,
        Event.promote none, Event.weak_ipm_lock],
       Outcome.threw (Exception.runtime_error "cannot publish msg which is a null pointer")⟩ ∧
    publish rcl_constants intra_publisher (example_env 1 1 0 true)
        (⟨none, 4⟩ : MessageUniquePtr Nat) =
      ⟨[Event.get_subscription_count, Event.get_intra_process_subscription_count,
        Event.weak_ipm_lock],
       Outcome.threw (Exception.runtime_error "cannot publish msg which is a null pointer")⟩ := by
  refine ⟨rfl, ?_, rfl, rfl⟩
  intro e h
  have h2 : (publish rcl_constants inter_publisher (example_env 1 0 0 true)
      (⟨none, 4⟩ : MessageUniquePtr Nat)).outcome = Outcome.undefined_behavior := rfl
  rw [h2] at h
  exact Outcome.noConfusion h

/-- C5. The inter-process send raises a failure if and only if the status returned by
`rcl_publish` is not `RCL_RET_OK` and the transient case does not hold, where the
transient case is: the status is `RCL_RET_PUBLISHER_INVALID`, the publisher is valid
except for its context, the context is not null, and the context is not valid. In the
transient case it returns; in every other case with a status other than `RCL_RET_OK` the
failure is the rcl error carrying that status and the text "failed to publish message".
A publish that reaches the send (intra-process delivery disabled, or enabled with a live
manager and more subscriptions than intra-process ones) ends as the send does. -/
theorem do_inter_process_publish_fails_iff_not_transient (K : RclConstants) (p : Publisher)
    (env : Environment M) (m : M) (d : Nat)
    (hpath : p.intra_process_is_enabled_ = false ∨
      (p.intra_process_is_enabled_ = true ∧ p.weak_ipm_ = true ∧
        env.get_subscription_count > env.get_intra_process_subscription_count)) :
    ((∃ e, (do_inter_process_publish K env m).outcome = Outcome.threw e) ↔
      (env.rcl_publish m ≠ K.RCL_RET_OK ∧
        transient_invalid K env (env.rcl_publish m) = false)) ∧
    (transient_invalid K env (env.rcl_publish m) = true ↔
      (env.rcl_publish m = K.RCL_RET_PUBLISHER_INVALID ∧
        env.rcl_publisher_is_valid_except_context = true ∧
        env.rcl_publisher_get_context = some false)) ∧
    (transient_invalid K env (env.rcl_publish m) = true →
      (do_inter_process_publish K env m).outcome = Outcome.returned) ∧
    (env.rcl_publish m ≠ K.RCL_RET_OK →
      transient_invalid K env (env.rcl_publish m) = false →
      (do_inter_process_publish K env m).outcome =
        Outcome.threw (Exception.rcl_error (env.rcl_publish m) "failed to publish message")) ∧
    (publish K p env ⟨some m, d⟩).outcome = (do_inter_process_publish K env m).outcome := by
  have hout := do_inter_process_publish_outcome K env m
  refine ⟨?_, ?_, ?_, ?_, ?_⟩
  · rw [hout]
    constructor
    · rintro ⟨e, he⟩
      by_contra hn
      rw [if_neg hn] at he
      exact Outcome.noConfusion he
    · intro h
      exact ⟨_, if_pos h⟩
  · simp [transient_invalid, and_assoc]
  · intro h
    rw [hout, if_neg]
    simp [h]
  · intro h1 h2
    rw [hout, if_pos ⟨h1, h2⟩]
  · rcases hpath with h | ⟨h1, h2, h3⟩
    · rw [publish_disabled K p env _ h]
      rfl
    · rw [publish_promoting K p env m d h1 h2 h3]

/-- Witness of C5: intra-process delivery disabled, one remote subscription, rcl reports
the publisher invalid and the context is shut down. -/
theorem do_inter_process_publish_fails_iff_not_transient_witness :
    (inter_publisher.intra_process_is_enabled_ = false ∨
      (inter_publisher.intra_process_is_enabled_ = true ∧ inter_publisher.weak_ipm_ = true ∧
        (example_env 1 0 300 false).get_subscription_count >
          (example_env 1 0 300 false).get_intra_process_subscription_count)) ∧
    transient_invalid rcl_constants (example_env 1 0 300 false) 300 = true ∧
    (publish rcl_constants inter_publisher (example_env 1 0 300 false) ⟨some 1, 4⟩).outcome =
      Outcome.returned :=
  ⟨Or.inl rfl, rfl,
    (do_inter_process_publish_fails_iff_not_transient rcl_constants inter_publisher
      (example_env 1 0 300 false) 1 4 (Or.inl rfl)).2.2.2.2.trans rfl⟩

/-- C6. On a publisher with intra-process delivery enabled, publishing a serialized
message raises the runtime error "storing serialized messages in intra process is not
supported yet" and calls nothing at all. On a publisher with intra-process delivery
disabled, its whole trace is the one call of `rcl_publish_serialized_message` on that
message: no allocation and no contact with the intra-process manager. -/
theorem publish_serialized_unsupported_or_single_send (K : RclConstants)
    (p_on p_off : Publisher) (env : Environment M) (s : rcl_serialized_message_t)
    (hon : p_on.intra_process_is_enabled_ = true)
    (hoff : p_off.intra_process_is_enabled_ = false) :
    publish_serialized K p_on env s =
      ⟨[], Outcome.threw (Exception.runtime_error
        "storing serialized messages in intra process is not supported yet")⟩ ∧
    (publish_serialized K p_off env s).trace = [Event.rcl_publish_serialized_message s] := by
  constructor
  · simp [publish_serialized, do_serialized_publish, hon, Run.raise]
  · simp [publish_serialized, do_serialized_publish, hoff, andThen_call,
      throw_from_rcl_error]
    split <;> rfl

/-- Witness of C6: payload bytes 1, 2. -/
theorem publish_serialized_unsupported_or_single_send_witness :
    (intra_publisher.intra_process_is_enabled_ = true ∧
      inter_publisher.intra_process_is_enabled_ = false) ∧
    (publish_serialized rcl_constants intra_publisher (example_env 1 0 0 true) ⟨[1, 2]⟩ =
      ⟨[], Outcome.threw (Exception.runtime_error
        "storing serialized messages in intra process is not supported yet")⟩ ∧
      (publish_serialized rcl_constants inter_publisher (example_env 1 0 0 true)
        ⟨[1, 2]⟩).trace = [Event.rcl_publish_serialized_message ⟨[1, 2]⟩]) :=
  ⟨⟨rfl, rfl⟩,
    publish_serialized_unsupported_or_single_send rcl_constants intra_publisher
      inter_publisher (example_env 1 0 0 true) ⟨[1, 2]⟩ rfl rfl⟩

/-- C7, evaluated at the failing input. Intra-process delivery is disabled and rcl
reports `RCL_RET_PUBLISHER_INVALID` while the publisher is valid except for its context,
which is not null and not valid (the transient case). Publishing a serialized message
raises the rcl error "failed to publish serialized message", whereas publishing a message
in the same environment returns. -/
theorem publish_serialized_transient_is_surfaced :
    transient_invalid rcl_constants (example_env 1 0 300 false) 300 = true ∧
    (example_env 1 0 300 false).rcl_publish_serialized_message ⟨[1, 2]⟩ = 300 ∧
    publish_serialized rcl_constants inter_publisher (example_env 1 0 300 false) ⟨[1, 2]⟩ =
      ⟨[Event.rcl_publish_serialized_message ⟨[1, 2]⟩],
       Outcome.threw (Exception.rcl_error 300 "failed to publish serialized message")⟩ ∧
    (publish_value rcl_constants inter_publisher (example_env 1 0 300 false) 1).outcome =
      Outcome.returned ∧
    (publish rcl_constants inter_publisher (example_env 1 0 300 false) ⟨some 1, 4⟩).outcome =
      Outcome.returned :=
  ⟨rfl, rfl, rfl, rfl, rfl⟩

/-- C8. Publishing `v` by const reference and publishing an exclusive handle on a copy of
`v` end the same way and make the same deliveries. With the deleter bound to the
publisher the traces are equal call for call, except that with intra-process delivery
enabled the by-reference call starts with one allocation and one copy construction through
the allocator of the publisher. With any other deleter the outcome is still the same and
the deliveries differ at most in the deleter carried by the exclusive handle. -/
theorem publish_value_agrees_with_publish_unique (K : RclConstants) (p : Publisher)
    (env : Environment M) (v : M) :
    (publish_value K p env v).outcome =
      (publish K p env ⟨some v, p.message_deleter_⟩).outcome ∧
    deliveries (publish_value K p env v).trace =
      deliveries (publish K p env ⟨some v, p.message_deleter_⟩).trace ∧
    (publish_value K p env v).trace =
      (if p.intra_process_is_enabled_ then
        [Event.allocate p.message_allocator_ 1, Event.construct p.message_allocator_ v]
       else []) ++ (publish K p env ⟨some v, p.message_deleter_⟩).trace ∧
    (∀ d : Nat,
      (publish_value K p env v).outcome = (publish K p env ⟨some v, d⟩).outcome ∧
      (deliveries (publish_value K p env v).trace).map Event.forget_deleter =
        (deliveries (publish K p env ⟨some v, d⟩).trace).map Event.forget_deleter) := by
  cases hen : p.intra_process_is_enabled_
  · have hv : publish_value K p env v = do_inter_process_publish K env v := by
      simp [publish_value, hen]
    have hu : ∀ d, publish K p env ⟨some v, d⟩ = do_inter_process_publish K env v := by
      intro d
      rw [publish_disabled K p env _ hen]
      rfl
    simp [hv, hu]
  · have hv : publish_value K p env v =
        ⟨Event.allocate p.message_allocator_ 1 :: Event.construct p.message_allocator_ v ::
          (publish K p env ⟨some v, p.message_deleter_⟩).trace,
         (publish K p env ⟨some v, p.message_deleter_⟩).outcome⟩ := by
      simp [publish_value, hen, andThen_call]
    have hd : ∀ d,
        (publish K p env ⟨some v, p.message_deleter_⟩).outcome =
          (publish K p env ⟨some v, d⟩).outcome ∧
        (deliveries (publish K p env ⟨some v, p.message_deleter_⟩).trace).map
            Event.forget_deleter =
          (deliveries (publish K p env ⟨some v, d⟩).trace).map Event.forget_deleter := by
      intro d
      by_cases hc : env.get_intra_process_subscription_count < env.get_subscription_count <;>
        cases hl : p.weak_ipm_ <;>
        simp [publish, hen, hl, hc, get_subscription_count,
          get_intra_process_subscription_count, do_intra_process_publish_shared,
          do_intra_process_publish_unique, deref, Run.andThen, Run.call, Run.raise,
          Run.skip, deliveries, Event.is_delivery, Event.forget_deleter]
    rw [hv]
    refine ⟨rfl, ?_, by simp, ?_⟩
    · simp [deliveries, Event.is_delivery]
    · intro d
      refine ⟨(hd d).1, ?_⟩
      rw [← (hd d).2]
      simp [deliveries, Event.is_delivery]

/-- C9. With intra-process delivery enabled and the intra-process manager gone, publish
through any exclusive handle (null included) and publish by const reference both fail
with the stale-registry failure: the liveness check of the count query comes before
anything looks at the handle, so the run ends there with "registry unavailable", whatever
the subscription counts. Nothing is handed to the manager and rcl is never called to send.
The two forwarding members themselves also test liveness before the null test: on a gone
manager each raises the runtime error "intra process publish called after destruction of
intra process manager" after the lock alone, for every handle, null included. -/
theorem publish_stale_registry_fails (K : RclConstants) (p : Publisher)
    (env : Environment M) (msg : MessageUniquePtr M) (v : M)
    (henabled : p.intra_process_is_enabled_ = true)
    (hstale : p.weak_ipm_ = false) :
    publish K p env msg =
      ⟨[Event.get_subscription_count, Event.get_intra_process_subscription_count],
       Outcome.threw Exception.registry_unavailable⟩ ∧
    deliveries (publish K p env msg).trace = [] ∧
    publish_value K p env v =
      ⟨[Event.allocate p.message_allocator_ 1, Event.construct p.message_allocator_ v,
        Event.get_subscription_count, Event.get_intra_process_subscription_count],
       Outcome.threw Exception.registry_unavailable⟩ ∧
    deliveries (publish_value K p env v).trace = [] ∧
    do_intra_process_publish_shared p msg.ptr =
      ⟨[Event.weak_ipm_lock], Outcome.threw (Exception.runtime_error
        "intra process publish called after destruction of intra process manager")⟩ ∧
    do_intra_process_publish_unique p msg =
      ⟨[Event.weak_ipm_lock], Outcome.threw (Exception.runtime_error
        "intra process publish called after destruction of intra process manager")⟩ := by
  have hv : publish_value K p env v =
      ⟨[Event.allocate p.message_allocator_ 1, Event.construct p.message_allocator_ v,
        Event.get_subscription_count, Event.get_intra_process_subscription_count],
       Outcome.threw Exception.registry_unavailable⟩ := by
    simp [publish_value, henabled, andThen_call,
      publish_stale K p env ⟨some v, p.message_deleter_⟩ henabled hstale]
  rw [hv, publish_stale K p env msg henabled hstale]
  refine ⟨rfl, rfl, rfl, rfl, ?_, ?_⟩
  · simp [do_intra_process_publish_shared, hstale, Run.andThen, Run.call, Run.raise]
  · simp [do_intra_process_publish_unique, hstale, Run.andThen, Run.call, Run.raise]

/-- Witness of C9: a null handle, three subscriptions of which one is intra-process. -/
theorem publish_stale_registry_fails_witness :
    (stale_publisher.intra_process_is_enabled_ = true ∧ stale_publisher.weak_ipm_ = false) ∧
    (publish rcl_constants stale_publisher (example_env 3 1 0 true) ⟨none, 4⟩ =
        ⟨[Event.get_subscription_count, Event.get_intra_process_subscription_count],
         Outcome.threw Exception.registry_unavailable⟩ ∧
      deliveries (publish rcl_constants stale_publisher (example_env 3 1 0 true)
        ⟨none, 4⟩).trace = [] ∧
      publish_value rcl_constants stale_publisher (example_env 3 1 0 true) 1 =
        ⟨[Event.allocate 4 1, Event.construct 4 1,
          Event.get_subscription_count, Event.get_intra_process_subscription_count],
         Outcome.threw Exception.registry_unavailable⟩ ∧
      deliveries (publish_value rcl_constants stale_publisher (example_env 3 1 0 true)
        1).trace = [] ∧
      do_intra_process_publish_shared stale_publisher (none : Option Nat) =
        ⟨[Event.weak_ipm_lock], Outcome.threw (Exception.runtime_error
          "intra process publish called after destruction of intra process manager")⟩ ∧
      do_intra_process_publish_unique stale_publisher (⟨none, 4⟩ : MessageUniquePtr Nat) =
        ⟨[Event.weak_ipm_lock], Outcome.threw (Exception.runtime_error
          "intra process publish called after destruction of intra process manager")⟩) :=
  ⟨⟨rfl, rfl⟩,
    publish_stale_registry_fails rcl_constants stale_publisher (example_env 3 1 0 true)
      ⟨none, 4⟩ 1 rfl rfl⟩

/-- C10. With intra-process delivery enabled, a live intra-process manager, more
subscriptions than intra-process ones and a non-null handle on `m`, when `rcl_publish`
returns a status that is not `RCL_RET_OK` and the transient case does not hold, publish
raises the rcl error "failed to publish message" with that status, and its deliveries are
exactly the one hand-over to the intra-process manager followed by the one rcl send:
the hand-over stays in the trace and nothing is delivered or sent a second time. -/
theorem publish_remote_failure_keeps_local_delivery (K : RclConstants) (p : Publisher)
    (env : Environment M) (m : M) (d : Nat)
    (henabled : p.intra_process_is_enabled_ = true)
    (hlive : p.weak_ipm_ = true)
    (hcount : env.get_subscription_count > env.get_intra_process_subscription_count)
    (hfail : env.rcl_publish m ≠ K.RCL_RET_OK)
    (hhard : transient_invalid K env (env.rcl_publish m) = false) :
    (publish K p env ⟨some m, d⟩).outcome =
      Outcome.threw (Exception.rcl_error (env.rcl_publish m) "failed to publish message") ∧
    deliveries (publish K p env ⟨some m, d⟩).trace =
      [Event.ipm_publish_shared p.intra_process_publisher_id_ m p.message_allocator_,
       Event.rcl_publish m] := by
  rw [publish_promoting K p env m d henabled hlive hcount]
  refine ⟨?_, ?_⟩
  · show (do_inter_process_publish K env m).outcome = _
    rw [do_inter_process_publish_outcome, if_pos ⟨hfail, hhard⟩]
  · rw [deliveries_append, do_inter_process_publish_deliveries]
    rfl

/-- Witness of C10: rcl reports the publisher invalid while its context is still valid. -/
theorem publish_remote_failure_keeps_local_delivery_witness :
    (intra_publisher.intra_process_is_enabled_ = true ∧ intra_publisher.weak_ipm_ = true ∧
      (example_env 3 1 300 true).get_subscription_count >
        (example_env 3 1 300 true).get_intra_process_subscription_count ∧
      (example_env 3 1 300 true).rcl_publish 1 ≠ rcl_constants.RCL_RET_OK ∧
      transient_invalid rcl_constants (example_env 3 1 300 true)
        ((example_env 3 1 300 true).rcl_publish 1) = false) ∧
    ((publish rcl_constants intra_publisher (example_env 3 1 300 true) ⟨some 1, 4⟩).outcome =
        Outcome.threw (Exception.rcl_error 300 "failed to publish message") ∧
      deliveries (publish rcl_constants intra_publisher (example_env 3 1 300 true)
        ⟨some 1, 4⟩).trace = [Event.ipm_publish_shared 7 1 4, Event.rcl_publish 1]) :=
  ⟨⟨rfl, rfl, by decide, by decide, rfl⟩,
    publish_remote_failure_keeps_local_delivery rcl_constants intra_publisher
      (example_env 3 1 300 true) 1 4 rfl rfl (by decide) (by decide) rfl⟩

end Theorems

end rclcpp
